import Mathlib

/-!
A verification development for the AuditFlow AI workflow core
(`src/main.py`, `src/schemas.py`): template selection and building
(`build_workflow_for_client`, `gst_workflow_template`,
`generic_workflow_template`), the step-status update operation
(`update_step_status`), and the predictive risk scoring endpoint
(`predictive_clients`).

Modelling conventions:
* `datetime` values are modelled as `Int` seconds since the epoch;
  `timedelta(days = n)` is `n * 86400` seconds.
* Python's `x or d` on strings (empty string and `None` are falsy) is
  modelled by `pyOrStr`; `dict.get(k, d)` on an optional field is
  `Option.getD`.
* Python's `"gst" in ctype` substring test is modelled by `hasInfix`
  on `List Char`, and `str.lower()` by `strLower` (per-character
  `Char.toLower`, adequate for the ASCII data of this repository).
-/

/-- Lowercase a string, as a character list (models `str.lower()`). -/
def strLower (s : String) : List Char :=
  s.toList.map Char.toLower

/-- Substring containment on character lists (models Python's `in`). -/
def hasInfix (n h : List Char) : Bool :=
  match h with
  | [] => n.isEmpty
  | _ :: t => n.isPrefixOf h || hasInfix n t

/-- Python `x or d` for an optional string: `None` and `""` are falsy. -/
def pyOrStr (o : Option String) (d : String) : String :=
  match o with
  | none => d
  | some s => if s.isEmpty then d else s

/-- A client record as read from storage (`db.client.find_one`):
`_id` plus the fields the workflow core reads. Optional fields model
keys that may be absent from the stored document. -/
structure ClientRec where
  _id : String
  client_type : Option String := none
  fiscal_year : Option String := none
deriving DecidableEq

/-- `WorkflowStep` from `src/schemas.py`, with the `updated_at` field the
update endpoint writes onto stored step documents (absent at build time). -/
structure WorkflowStep where
  key : String
  title : String
  description : Option String := none
  category : String
  required_documents : List String := []
  assigned_to : Option String := none
  due_date : Option Int := none
  status : String := "todo"
  dependencies : List String := []
  updated_at : Option Int := none
deriving DecidableEq

/-- `Workflow` from `src/schemas.py`. -/
structure Workflow where
  client_id : String
  client_type : String
  fiscal_year : Option String := none
  version : String := "v1"
  steps : List WorkflowStep
deriving DecidableEq

/-- `gst_workflow_template` from `src/main.py` (lines 105-147); `today` is
the `datetime.utcnow()` reference instant. -/
def gst_workflow_template (client : ClientRec) (today : Int) : List WorkflowStep :=
  let fy := pyOrStr client.fiscal_year "Current FY"
  let base_due := today + 14 * 86400
  [ { key := "collect_gstr",
      title := "Collect GSTR-1, GSTR-3B, GSTR-2B",
      category := "documents",
      required_documents := ["GSTR-1", "GSTR-3B", "GSTR-2B"],
      description := some ("Collect GST returns for " ++ fy),
      due_date := some base_due },
    { key := "reconcile_ledgers",
      title := "Reconcile sales/purchase ledgers with GST",
      category := "verification",
      required_documents := ["Sales Ledger", "Purchase Ledger"],
      dependencies := ["collect_gstr"],
      due_date := some (base_due + 7 * 86400) },
    { key := "variance_analysis",
      title := "Variance and anomaly analysis",
      category := "analysis",
      dependencies := ["reconcile_ledgers"],
      due_date := some (base_due + 12 * 86400) },
    { key := "draft_report",
      title := "Draft GST Audit Report",
      category := "reporting",
      dependencies := ["variance_analysis"],
      due_date := some (base_due + 18 * 86400) },
    { key := "partner_signoff",
      title := "Partner Sign-off",
      category := "signoff",
      dependencies := ["draft_report"],
      due_date := some (base_due + 20 * 86400) } ]

/-- `generic_workflow_template` from `src/main.py` (lines 150-180). -/
def generic_workflow_template (_client : ClientRec) (today : Int) : List WorkflowStep :=
  [ { key := "kickoff",
      title := "Engagement kickoff & document request",
      category := "documents",
      due_date := some (today + 7 * 86400) },
    { key := "fieldwork",
      title := "Fieldwork and tests",
      category := "analysis",
      dependencies := ["kickoff"],
      due_date := some (today + 14 * 86400) },
    { key := "draft",
      title := "Draft report",
      category := "reporting",
      dependencies := ["fieldwork"],
      due_date := some (today + 20 * 86400) },
    { key := "signoff",
      title := "Final sign-off",
      category := "signoff",
      dependencies := ["draft"],
      due_date := some (today + 22 * 86400) } ]

/-- The branch condition of `build_workflow_for_client`:
`"gst" in (client.get("client_type") or "").lower()`. -/
def client_type_is_gst (client_type : Option String) : Bool :=
  hasInfix "gst".toList (strLower (pyOrStr client_type ""))

/-- `build_workflow_for_client` from `src/main.py` (lines 183-196). -/
def build_workflow_for_client (client : ClientRec) (today : Int) : Workflow :=
  let steps :=
    if client_type_is_gst client.client_type then
      gst_workflow_template client today
    else
      generic_workflow_template client today
  { client_id := client._id,
    client_type := client.client_type.getD "",
    fiscal_year := client.fiscal_year,
    version := "v1",
    steps := steps }

example :
    (build_workflow_for_client { _id := "a", client_type := some "CompanyGST" } 0).steps.map
      WorkflowStep.key =
    ["collect_gstr", "reconcile_ledgers", "variance_analysis", "draft_report",
     "partner_signoff"] := by decide

example :
    (build_workflow_for_client { _id := "a" } 0).steps.map WorkflowStep.key =
    ["kickoff", "fieldwork", "draft", "signoff"] := by decide

/-- Error outcomes of the step-update endpoint (the two `HTTPException`
404s raised by `update_step_status` in `src/main.py`). -/
inductive UpdateError where
  | workflowNotFound
  | stepNotFound
deriving DecidableEq

/-- The in-place mutation loop of `update_step_status` (lines 228-234):
walk the steps list, set `status` and `updated_at` on the FIRST step whose
`key` matches, then `break`; `none` when no step matches. -/
def update_steps (steps : List WorkflowStep) (step_key status : String) (now : Int) :
    Option (List WorkflowStep) :=
  match steps with
  | [] => none
  | s :: rest =>
    if s.key = step_key then
      some ({ s with status := status, updated_at := some now } :: rest)
    else
      (update_steps rest step_key status now).map (s :: ·)

/-- The per-workflow effect of the endpoint: the workflow with its steps
list rewritten by `update_steps`, or `none` when the step key matches
no step. -/
def update_workflow (wf : Workflow) (step_key status : String) (now : Int) :
    Option Workflow :=
  (update_steps wf.steps step_key status now).map (fun st => { wf with steps := st })

/-- The workflow collection, keyed by document id. -/
abbrev WorkflowStore := List (String × Workflow)

/-- `db.workflow.find_one({"_id": ...})`: first document with the given id. -/
def store_find_one (db : WorkflowStore) (id : String) : Option Workflow :=
  (db.find? (fun p => p.1 = id)).map Prod.snd

/-- `db.workflow.update_one({"_id": ...}, {"$set": {"steps": ...}})`:
replace the steps of the first document with the given id. -/
def store_set_steps (db : WorkflowStore) (id : String) (steps : List WorkflowStep) :
    WorkflowStore :=
  match db with
  | [] => []
  | p :: rest =>
    if p.1 = id then (p.1, { p.2 with steps := steps }) :: rest
    else p :: store_set_steps rest id steps

/-- `update_step_status` from `src/main.py` (lines 221-239), as a function
of the store: look up the workflow, rewrite the first matching step, write
the steps array back.  An `HTTPException` is raised before any write, so an
error outcome is paired with the store unchanged. -/
def update_step_status (db : WorkflowStore) (workflow_id step_key status : String)
    (now : Int) : Except UpdateError Unit × WorkflowStore :=
  match store_find_one db workflow_id with
  | none => (Except.error UpdateError.workflowNotFound, db)
  | some wf =>
    match update_steps wf.steps step_key status now with
    | none => (Except.error UpdateError.stepNotFound, db)
    | some steps2 => (Except.ok (), store_set_steps db workflow_id steps2)

/-- A value stored under a step's `due_date` key in the database: either a
BSON datetime (`dt`) or some non-datetime value (`other`); the
`isinstance(due, datetime)` test in `predictive_clients` distinguishes
exactly these. -/
inductive BsonDue where
  | dt (t : Int)
  | other (repr : String)
deriving DecidableEq

/-- A stored step as `predictive_clients` reads it: raw dictionary access,
so both fields may be absent and `due_date` may hold a non-datetime. -/
structure RawStep where
  due_date : Option BsonDue := none
  status : Option String := none
deriving DecidableEq

/-- A stored workflow as `predictive_clients` reads it (`wf.get("steps", [])`). -/
structure RawWorkflow where
  steps : List RawStep := []
deriving DecidableEq

/-- The overdue test of `predictive_clients` (line 342):
`isinstance(due, datetime) and due < now and status != "done"`,
with `status = s.get("status", "todo")`. -/
def step_is_overdue (s : RawStep) (now : Int) : Bool :=
  match s.due_date with
  | some (BsonDue.dt d) => d < now && (s.status.getD "todo") ≠ "done"
  | _ => false

/-- The accumulation loop of `predictive_clients` (lines 337-343):
`overdue += 15` for each overdue step across all the client's workflows. -/
def overdue_penalty (wfs : List RawWorkflow) (now : Int) : Int :=
  wfs.foldl
    (fun acc wf =>
      wf.steps.foldl (fun a s => if step_is_overdue s now then a + 15 else a) acc)
    0

/-- `max(0, 5 - len(docs)) * 10` (line 336). -/
def missing_docs_penalty (docCount : Nat) : Int :=
  max 0 (5 - (docCount : Int)) * 10

/-- `score = min(100, 50 + missing_docs_penalty + overdue)` (line 344). -/
def risk_score (docCount : Nat) (wfs : List RawWorkflow) (now : Int) : Int :=
  min 100 (50 + missing_docs_penalty docCount + overdue_penalty wfs now)

/-- The risk-level assignment of `predictive_clients` (lines 345-349). -/
def risk_level (score : Int) : String :=
  if score ≥ 85 then "high"
  else if score ≥ 70 then "medium"
  else "low"

example :
    risk_score 2 [{ steps := [{ due_date := some (BsonDue.dt 0), status := some "todo" }] }] 1
      = 95 := by decide

example :
    update_steps (generic_workflow_template { _id := "a" } 0) "draft" "done" 99 ≠ none := by
  decide

/-- Stepping `update_steps` past a run of non-matching steps: with a match
at the head of the remainder, exactly that step is rewritten. -/
theorem update_steps_eq_of_split (pre : List WorkflowStep) (st : WorkflowStep)
    (post : List WorkflowStep) (k s : String) (n : Int)
    (hpre : ∀ x ∈ pre, x.key ≠ k) (hst : st.key = k) :
    update_steps (pre ++ st :: post) k s n =
      some (pre ++ { st with status := s, updated_at := some n } :: post) := by
  induction pre with
  | nil =>
    simp [update_steps, hst]
  | cons hd tl ih =>
    have hhd : hd.key ≠ k := hpre hd (by simp)
    simp only [List.cons_append, update_steps, if_neg hhd, List.append_eq]
    rw [ih (fun x hx => hpre x (by simp [hx]))]
    rfl

/-- When some step matches, `update_steps` succeeds and rewrites the FIRST
matching step, leaving every other step untouched. -/
theorem update_steps_some_of_mem (steps : List WorkflowStep) (k s : String) (n : Int)
    (h : ∃ st ∈ steps, st.key = k) :
    ∃ pre st post, steps = pre ++ st :: post ∧ st.key = k ∧
      (∀ x ∈ pre, x.key ≠ k) ∧
      update_steps steps k s n =
        some (pre ++ { st with status := s, updated_at := some n } :: post) := by
  induction steps with
  | nil => simp at h
  | cons hd tl ih =>
    by_cases hhd : hd.key = k
    · exact ⟨[], hd, tl, by simp, hhd, by simp, by simp [update_steps, hhd]⟩
    · obtain ⟨st0, hmem, hk0⟩ := h
      rcases List.mem_cons.mp hmem with heq | hmem'
      · exact absurd (heq ▸ hk0) hhd
      · obtain ⟨pre, st, post, hsplit, hk, hpre, hupd⟩ := ih ⟨st0, hmem', hk0⟩
        refine ⟨hd :: pre, st, post, by simp [hsplit], hk, ?_, ?_⟩
        · intro x hx
          rcases List.mem_cons.mp hx with rfl | hx'
          · exact hhd
          · exact hpre x hx'
        · simp [update_steps, if_neg hhd, hupd]

/-- `update_steps` fails exactly when no step matches the key. -/
theorem update_steps_none_iff (steps : List WorkflowStep) (k s : String) (n : Int) :
    update_steps steps k s n = none ↔ ∀ st ∈ steps, st.key ≠ k := by
  induction steps with
  | nil => simp [update_steps]
  | cons hd tl ih =>
    by_cases hhd : hd.key = k
    · simp [update_steps, hhd]
    · simp [update_steps, hhd, ih]

/-- Dependencies check: walking the steps list front to back, every
dependency of a step refers to a key already seen. -/
def deps_forward_only (seen : List String) : List WorkflowStep → Bool
  | [] => true
  | s :: rest =>
    s.dependencies.all (fun d => seen.contains d) && deps_forward_only (s.key :: seen) rest

/-- Soundness of `deps_forward_only`: a dependency of the step at index `i`
is either among the initially seen keys or the key of a strictly earlier
step. -/
theorem deps_forward_only_sound (steps : List WorkflowStep) (seen : List String)
    (h : deps_forward_only seen steps = true) (i : Nat) (st : WorkflowStep)
    (hst : steps[i]? = some st) (d : String) (hd : d ∈ st.dependencies) :
    d ∈ seen ∨ ∃ j < i, ∃ st2, steps[j]? = some st2 ∧ st2.key = d := by
  induction steps generalizing seen i with
  | nil => simp at hst
  | cons hd0 tl ih =>
    rw [deps_forward_only, Bool.and_eq_true] at h
    match i with
    | 0 =>
      simp only [List.getElem?_cons_zero, Option.some_inj] at hst
      subst hst
      left
      have h1 := List.all_eq_true.mp h.1 d hd
      simpa using h1
    | Nat.succ i' =>
      simp only [List.getElem?_cons_succ] at hst
      rcases ih (hd0.key :: seen) h.2 i' hst with hin | ⟨j, hj, st2, hst2, hkey⟩
      · rcases List.mem_cons.mp hin with rfl | hin'
        · right
          exact ⟨0, Nat.succ_pos _, hd0, by simp, rfl⟩
        · exact Or.inl hin'
      · right
        exact ⟨j + 1, Nat.succ_lt_succ hj, st2, by simpa using hst2, hkey⟩

/-- The inner accumulation loop of `predictive_clients` adds `15` per
overdue step: it equals `15 * count`. -/
theorem overdue_foldl_eq (steps : List RawStep) (now : Int) (acc : Int) :
    steps.foldl (fun a s => if step_is_overdue s now then a + 15 else a) acc =
      acc + 15 * (steps.countP (fun s => step_is_overdue s now) : Int) := by
  induction steps generalizing acc with
  | nil => simp
  | cons hd tl ih =>
    by_cases hov : step_is_overdue hd now
    · simp only [List.foldl_cons, if_pos hov, ih, List.countP_cons, hov, if_pos]
      push_cast
      ring
    · simp only [List.foldl_cons, if_neg hov, ih, List.countP_cons]
      simp [hov]

/-- `overdue_penalty` is `15` times the number of overdue steps across all
the client's workflows. -/
theorem overdue_penalty_eq_count (wfs : List RawWorkflow) (now : Int) :
    overdue_penalty wfs now =
      15 * ((wfs.map (fun wf => wf.steps.countP (fun s => step_is_overdue s now))).sum : Int) := by
  unfold overdue_penalty
  suffices h : ∀ acc : Int,
      wfs.foldl
        (fun acc wf =>
          wf.steps.foldl (fun a s => if step_is_overdue s now then a + 15 else a) acc)
        acc =
      acc + 15 * ((wfs.map (fun wf => wf.steps.countP (fun s => step_is_overdue s now))).sum : Int) by
    simpa using h 0
  induction wfs with
  | nil => simp
  | cons hd tl ih =>
    intro acc
    rw [List.foldl_cons, ih, overdue_foldl_eq]
    simp only [List.map_cons, List.sum_cons]
    ring

/-- C1: `build_workflow_for_client` selects the GST template family exactly
when the client's `client_type`, lowercased, contains "gst" (the branch
condition `client_type_is_gst`, which is false for a missing or empty
`client_type`), returning the 5 GST step keys in fixed order, and otherwise
the 4 Generic step keys in fixed order. -/
theorem build_workflow_selects_template_by_gst_substring (c : ClientRec) (t : Int) :
    (client_type_is_gst none = false ∧ client_type_is_gst (some "") = false) ∧
    (build_workflow_for_client c t).steps.map WorkflowStep.key =
      (if client_type_is_gst c.client_type then
        ["collect_gstr", "reconcile_ledgers", "variance_analysis", "draft_report",
         "partner_signoff"]
      else
        ["kickoff", "fieldwork", "draft", "signoff"]) := by
  refine ⟨⟨by decide, by decide⟩, ?_⟩
  unfold build_workflow_for_client
  by_cases h : client_type_is_gst c.client_type
  · simp [h, gst_workflow_template]
  · simp [h, generic_workflow_template]

/-- C2: due dates follow the template schedule: GST dues are anchored at
`referenceTime + 14d` with offsets `0, 7, 12, 18, 20` days, Generic dues at
`referenceTime` with offsets `7, 14, 20, 22` days; dues are non-decreasing
in list order; and at reference time 2024-01-01T00:00:00Z (epoch
1704067200) a GST client's `collect_gstr` is due 2024-01-15 (1705276800)
and `partner_signoff` 2024-02-04 (1707004800). -/
theorem build_workflow_due_dates_follow_schedule (c : ClientRec) (t : Int) :
    ((build_workflow_for_client c t).steps.map WorkflowStep.due_date =
      if client_type_is_gst c.client_type then
        [some (t + 14 * 86400), some (t + 14 * 86400 + 7 * 86400),
         some (t + 14 * 86400 + 12 * 86400), some (t + 14 * 86400 + 18 * 86400),
         some (t + 14 * 86400 + 20 * 86400)]
      else
        [some (t + 7 * 86400), some (t + 14 * 86400), some (t + 20 * 86400),
         some (t + 22 * 86400)]) ∧
    List.Chain' (· ≤ ·)
      ((build_workflow_for_client c t).steps.filterMap WorkflowStep.due_date) ∧
    ((build_workflow_for_client { _id := "c1", client_type := some "GST" }
        1704067200).steps.map (fun s => (s.key, s.due_date)))[0]? =
      some ("collect_gstr", some 1705276800) ∧
    ((build_workflow_for_client { _id := "c1", client_type := some "GST" }
        1704067200).steps.map (fun s => (s.key, s.due_date)))[4]? =
      some ("partner_signoff", some 1707004800) := by
  refine ⟨?_, ?_, by decide, by decide⟩
  · unfold build_workflow_for_client
    by_cases h : client_type_is_gst c.client_type
    · simp [h, gst_workflow_template]
    · simp [h, generic_workflow_template]
  · unfold build_workflow_for_client
    by_cases h : client_type_is_gst c.client_type
    · simp only [h, if_true, gst_workflow_template]
      simp [List.chain'_cons]
    · simp only [h, if_false, Bool.false_eq_true, generic_workflow_template]
      simp [List.chain'_cons]

/-- C3: when the workflow contains a step with the given key, the update
succeeds, changes only that (first matching) step's `status` and
`updated_at`, preserves every other step and every other workflow field and
the step count, and re-applying the same status leaves all statuses
unchanged. -/
theorem update_step_status_localized_and_idempotent (wf : Workflow) (k s : String)
    (n1 n2 : Int) (h : ∃ st ∈ wf.steps, st.key = k) :
    ∃ wf1, update_workflow wf k s n1 = some wf1 ∧
      wf1.client_id = wf.client_id ∧ wf1.client_type = wf.client_type ∧
      wf1.fiscal_year = wf.fiscal_year ∧ wf1.version = wf.version ∧
      (∃ pre st post, wf.steps = pre ++ st :: post ∧ st.key = k ∧
        wf1.steps = pre ++ { st with status := s, updated_at := some n1 } :: post) ∧
      wf1.steps.length = wf.steps.length ∧
      ∃ wf2, update_workflow wf1 k s n2 = some wf2 ∧
        wf2.steps.map WorkflowStep.status = wf1.steps.map WorkflowStep.status := by
  obtain ⟨pre, st, post, hsplit, hk, hpre, hupd⟩ := update_steps_some_of_mem wf.steps k s n1 h
  refine ⟨{ wf with steps := pre ++ { st with status := s, updated_at := some n1 } :: post },
    ?_, rfl, rfl, rfl, rfl, ⟨pre, st, post, hsplit, hk, rfl⟩, ?_, ?_⟩
  · unfold update_workflow
    rw [hupd]
    rfl
  · simp [hsplit]
  · have hk1 : ({ st with status := s, updated_at := some n1 } : WorkflowStep).key = k := hk
    have hupd2 := update_steps_eq_of_split pre
      { st with status := s, updated_at := some n1 } post k s n2 hpre hk1
    refine ⟨{ wf with steps :=
        pre ++ { st with status := s, updated_at := some n2 } :: post }, ?_, ?_⟩
    · unfold update_workflow
      simp only [hupd2]
      rfl
    · simp

/-- Witness for C3 at a concrete GST workflow, step `draft_report`. -/
theorem update_step_status_localized_and_idempotent_witness :
    ∃ wf1,
      update_workflow
        (build_workflow_for_client
          { _id := "c1", client_type := some "GST", fiscal_year := some "FY 2024-25" } 0)
        "draft_report" "done" 1 = some wf1 ∧
      wf1.client_id =
        (build_workflow_for_client
          { _id := "c1", client_type := some "GST", fiscal_year := some "FY 2024-25" }
          0).client_id ∧
      wf1.client_type =
        (build_workflow_for_client
          { _id := "c1", client_type := some "GST", fiscal_year := some "FY 2024-25" }
          0).client_type ∧
      wf1.fiscal_year =
        (build_workflow_for_client
          { _id := "c1", client_type := some "GST", fiscal_year := some "FY 2024-25" }
          0).fiscal_year ∧
      wf1.version =
        (build_workflow_for_client
          { _id := "c1", client_type := some "GST", fiscal_year := some "FY 2024-25" }
          0).version ∧
      (∃ pre st post,
        (build_workflow_for_client
          { _id := "c1", client_type := some "GST", fiscal_year := some "FY 2024-25" }
          0).steps = pre ++ st :: post ∧ st.key = "draft_report" ∧
        wf1.steps = pre ++ { st with status := "done", updated_at := some 1 } :: post) ∧
      wf1.steps.length =
        (build_workflow_for_client
          { _id := "c1", client_type := some "GST", fiscal_year := some "FY 2024-25" }
          0).steps.length ∧
      ∃ wf2, update_workflow wf1 "draft_report" "done" 2 = some wf2 ∧
        wf2.steps.map WorkflowStep.status = wf1.steps.map WorkflowStep.status :=
  update_step_status_localized_and_idempotent
    (build_workflow_for_client
      { _id := "c1", client_type := some "GST", fiscal_year := some "FY 2024-25" } 0)
    "draft_report" "done" 1 2 (by decide)

/-- C4: on a missing workflow id the endpoint signals `workflowNotFound`,
on a missing step key it signals `stepNotFound`, and in both cases the
store is returned entirely unchanged (no write-back occurs). -/
theorem update_step_status_failure_leaves_store_unchanged (db : WorkflowStore)
    (wid k s : String) (n : Int) :
    (store_find_one db wid = none →
      update_step_status db wid k s n = (Except.error UpdateError.workflowNotFound, db)) ∧
    (∀ wf, store_find_one db wid = some wf → (∀ st ∈ wf.steps, st.key ≠ k) →
      update_step_status db wid k s n = (Except.error UpdateError.stepNotFound, db)) := by
  constructor
  · intro hnone
    unfold update_step_status
    rw [hnone]
  · intro wf hfind hnokey
    unfold update_step_status
    simp only [hfind, (update_steps_none_iff wf.steps k s n).mpr hnokey]

/-- Witness for C4: both failure modes at concrete stores. -/
theorem update_step_status_failure_leaves_store_unchanged_witness :
    update_step_status [] "w1" "kickoff" "done" 0 =
      (Except.error UpdateError.workflowNotFound, ([] : WorkflowStore)) ∧
    update_step_status
      [("w1", { client_id := "c1", client_type := "", steps := [] })]
      "w1" "nonexistent_key" "done" 0 =
      (Except.error UpdateError.stepNotFound,
        [("w1", { client_id := "c1", client_type := "", steps := [] })]) :=
  ⟨(update_step_status_failure_leaves_store_unchanged [] "w1" "kickoff" "done" 0).1
      (by decide),
   (update_step_status_failure_leaves_store_unchanged
      [("w1", { client_id := "c1", client_type := "", steps := [] })]
      "w1" "nonexistent_key" "done" 0).2
      { client_id := "c1", client_type := "", steps := [] } (by decide) (by decide)⟩

/-- C9: the endpoint accepts any status string without validation: for any
workflow containing the key and ANY string `s`, the update succeeds and the
matching step's status becomes `s`. -/
theorem update_step_status_accepts_any_status (wf : Workflow) (k s : String) (n : Int)
    (h : ∃ st ∈ wf.steps, st.key = k) :
    ∃ wf1, update_workflow wf k s n = some wf1 ∧
      ∃ st1 ∈ wf1.steps, st1.key = k ∧ st1.status = s := by
  obtain ⟨pre, st, post, hsplit, hk, hpre, hupd⟩ := update_steps_some_of_mem wf.steps k s n h
  refine ⟨{ wf with steps := pre ++ { st with status := s, updated_at := some n } :: post },
    ?_, ⟨{ st with status := s, updated_at := some n }, by simp, hk, rfl⟩⟩
  unfold update_workflow
  rw [hupd]
  rfl

/-- Witness for C9: a status string outside the enumerated set is stored. -/
theorem update_step_status_accepts_any_status_witness :
    ∃ wf1,
      update_workflow (build_workflow_for_client { _id := "c1" } 0)
        "kickoff" "definitely_not_a_valid_status" 3 = some wf1 ∧
      ∃ st1 ∈ wf1.steps, st1.key = "kickoff" ∧
        st1.status = "definitely_not_a_valid_status" :=
  update_step_status_accepts_any_status (build_workflow_for_client { _id := "c1" } 0)
    "kickoff" "definitely_not_a_valid_status" 3 (by decide)

/-- C5: the risk score equals `min(100, 50 + max(0, 5 - docs) * 10 +
15 * overdueCount)`; the risk level is "high" iff score ≥ 85, "medium" iff
70 ≤ score < 85, and "low" iff score < 70; and a client with 2 documents
and exactly one overdue incomplete step gets penalties 30 and 15, score 95
and level "high". -/
theorem predictive_risk_score_formula (docs : Nat) (wfs : List RawWorkflow) (now : Int) :
    risk_score docs wfs now =
      min 100 (50 + max 0 (5 - (docs : Int)) * 10 +
        15 * ((wfs.map (fun wf =>
          wf.steps.countP (fun s => step_is_overdue s now))).sum : Int)) ∧
    (∀ sc : Int,
      (risk_level sc = "high" ↔ sc ≥ 85) ∧
      (risk_level sc = "medium" ↔ 70 ≤ sc ∧ sc < 85) ∧
      (risk_level sc = "low" ↔ sc < 70)) ∧
    (missing_docs_penalty 2 = 30 ∧
     overdue_penalty
       [{ steps := [{ due_date := some (BsonDue.dt 0), status := some "todo" }] }] 1 = 15 ∧
     risk_score 2
       [{ steps := [{ due_date := some (BsonDue.dt 0), status := some "todo" }] }] 1 = 95 ∧
     risk_level 95 = "high") := by
  refine ⟨?_, ?_, by decide, by decide, by decide, by decide⟩
  · unfold risk_score
    rw [overdue_penalty_eq_count]
    rfl
  · intro sc
    unfold risk_level
    by_cases h85 : sc ≥ 85
    · simp only [if_pos h85]
      refine ⟨by simp [h85], ?_, ?_⟩
      · constructor
        · intro heq
          exact absurd heq (by decide)
        · intro hlt
          omega
      · constructor
        · intro heq
          exact absurd heq (by decide)
        · intro hlt
          omega
    · by_cases h70 : sc ≥ 70
      · simp only [if_neg h85, if_pos h70]
        refine ⟨?_, ?_, ?_⟩
        · constructor
          · intro heq
            exact absurd heq (by decide)
          · intro hge
            omega
        · simp
          omega
        · constructor
          · intro heq
            exact absurd heq (by decide)
          · intro hlt
            omega
      · simp only [if_neg h85, if_neg h70]
        refine ⟨?_, ?_, ?_⟩
        · constructor
          · intro heq
            exact absurd heq (by decide)
          · intro hge
            omega
        · constructor
          · intro heq
            exact absurd heq (by decide)
          · intro hlt
            omega
        · simp
          omega

/-- C6: in every workflow produced by the builder, every key in a step's
`dependencies` is the key of a step occurring strictly earlier in the same
steps list (forward-only, acyclic, sibling-only). -/
theorem build_workflow_dependencies_forward_only (c : ClientRec) (t : Int)
    (i : Nat) (st : WorkflowStep)
    (hst : (build_workflow_for_client c t).steps[i]? = some st)
    (d : String) (hd : d ∈ st.dependencies) :
    ∃ j < i, ∃ st2, (build_workflow_for_client c t).steps[j]? = some st2 ∧
      st2.key = d := by
  have hall : deps_forward_only [] (build_workflow_for_client c t).steps = true := by
    unfold build_workflow_for_client
    by_cases h : client_type_is_gst c.client_type
    · simp only [h, if_true]
      rfl
    · simp only [h, if_false, Bool.false_eq_true]
      rfl
  rcases deps_forward_only_sound (build_workflow_for_client c t).steps [] hall i st hst d hd
    with hin | hout
  · simp at hin
  · exact hout

/-- Witness for C6: in a Generic workflow, the dependency `kickoff` of the
step at index 1 (`fieldwork`) is the key of an earlier step. -/
theorem build_workflow_dependencies_forward_only_witness :
    ∃ j < 1, ∃ st2, (build_workflow_for_client { _id := "c1" } 0).steps[j]? = some st2 ∧
      st2.key = "kickoff" :=
  build_workflow_dependencies_forward_only { _id := "c1" } 0 1
    { key := "fieldwork",
      title := "Fieldwork and tests",
      category := "analysis",
      dependencies := ["kickoff"],
      due_date := some 1209600 }
    (by decide) "kickoff" (by decide)

/-- C7: every built workflow has `version = "v1"`, every step at status
`"todo"`, and `client_id`, `client_type`, `fiscal_year` copied from the
input client record. -/
theorem build_workflow_output_fields (c : ClientRec) (t : Int) :
    (build_workflow_for_client c t).version = "v1" ∧
    (∀ st ∈ (build_workflow_for_client c t).steps, st.status = "todo") ∧
    (build_workflow_for_client c t).client_id = c._id ∧
    (build_workflow_for_client c t).fiscal_year = c.fiscal_year ∧
    ∀ ct, c.client_type = some ct → (build_workflow_for_client c t).client_type = ct := by
  refine ⟨rfl, ?_, rfl, rfl, ?_⟩
  · intro st hst
    unfold build_workflow_for_client at hst
    by_cases h : client_type_is_gst c.client_type
    · simp only [h, if_true, gst_workflow_template] at hst
      fin_cases hst <;> rfl
    · simp only [h, if_false, Bool.false_eq_true, generic_workflow_template] at hst
      fin_cases hst <;> rfl
  · intro ct hct
    show c.client_type.getD "" = ct
    rw [hct]
    rfl

/-- Witness for C7: the snapshot `client_type` of a concrete build. -/
theorem build_workflow_output_fields_witness :
    (build_workflow_for_client { _id := "x", client_type := some "GST" } 0).client_type =
      "GST" :=
  (build_workflow_output_fields { _id := "x", client_type := some "GST" } 0).2.2.2.2
    "GST" rfl

/-- C8 counterexample: for a GST client whose `fiscal_year` is PRESENT but
empty (`some ""`), the `collect_gstr` description is the `"Current FY"`
placeholder, NOT the interpolation of the present value (Python's
`client.get("fiscal_year") or "Current FY"` treats the empty string as
falsy), so the claim as stated fails. -/
theorem gst_description_empty_fiscal_year_counterexample :
    ((build_workflow_for_client
        { _id := "c1", client_type := some "GST", fiscal_year := some "" } 0).steps.map
      WorkflowStep.description)[0]? =
      some (some "Collect GST returns for Current FY") ∧
    some (some "Collect GST returns for Current FY") ≠
      some (some ("Collect GST returns for " ++ "")) := by
  constructor
  · rfl
  · decide

/-- C8 (amended): in every GST-family workflow the first step is
`collect_gstr` with description `"Collect GST returns for "` followed by
the client's `fiscal_year` whenever it is present AND non-empty; when it is
absent or empty the placeholder `"Current FY"` is used. -/
theorem gst_description_interpolates_fiscal_year (c : ClientRec) (t : Int)
    (h : client_type_is_gst c.client_type = true) :
    ∃ st, (build_workflow_for_client c t).steps.head? = some st ∧
      st.key = "collect_gstr" ∧
      st.description = some ("Collect GST returns for " ++ pyOrStr c.fiscal_year "Current FY") ∧
      (∀ fy, c.fiscal_year = some fy → fy.isEmpty = false →
        st.description = some ("Collect GST returns for " ++ fy)) ∧
      ((c.fiscal_year = none ∨ c.fiscal_year = some "") →
        st.description = some "Collect GST returns for Current FY") := by
  have hsteps : (build_workflow_for_client c t).steps = gst_workflow_template c t := by
    unfold build_workflow_for_client
    simp [h]
  rw [hsteps]
  unfold gst_workflow_template
  refine ⟨_, rfl, rfl, rfl, ?_, ?_⟩
  · intro fy hfy hne
    show some ("Collect GST returns for " ++ pyOrStr c.fiscal_year "Current FY") = _
    rw [hfy]
    simp [pyOrStr, hne]
  · intro hcase
    show some ("Collect GST returns for " ++ pyOrStr c.fiscal_year "Current FY") = _
    rcases hcase with hnone | hempty
    · rw [hnone]
      rfl
    · rw [hempty]
      rfl

/-- Witness for the amended C8 at a concrete non-empty fiscal year. -/
theorem gst_description_interpolates_fiscal_year_witness :
    ∃ st,
      (build_workflow_for_client
        { _id := "c1", client_type := some "GST", fiscal_year := some "FY 2024-25" }
        0).steps.head? = some st ∧
      st.key = "collect_gstr" ∧
      st.description =
        some ("Collect GST returns for " ++
          pyOrStr (some "FY 2024-25") "Current FY") ∧
      (∀ fy, (some "FY 2024-25" : Option String) = some fy → fy.isEmpty = false →
        st.description = some ("Collect GST returns for " ++ fy)) ∧
      (((some "FY 2024-25" : Option String) = none ∨
          (some "FY 2024-25" : Option String) = some "") →
        st.description = some "Collect GST returns for Current FY") :=
  gst_description_interpolates_fiscal_year
    { _id := "c1", client_type := some "GST", fiscal_year := some "FY 2024-25" } 0
    (by decide)

/-- C10: a step contributes to the overdue penalty exactly when its stored
`due_date` is a datetime in the past and its status (defaulting to "todo"
when absent) is not "done"; a step with an absent or non-datetime
`due_date` never counts; a step with no stored status is treated as "todo"
and counts when its datetime due date is past. -/
theorem overdue_step_requires_datetime_due (s : RawStep) (now : Int) :
    (step_is_overdue s now = true ↔
      ∃ d, s.due_date = some (BsonDue.dt d) ∧ d < now ∧ s.status.getD "todo" ≠ "done") ∧
    (s.due_date = none → step_is_overdue s now = false) ∧
    (∀ r, s.due_date = some (BsonDue.other r) → step_is_overdue s now = false) ∧
    (∀ d, s.due_date = some (BsonDue.dt d) → s.status = none → d < now →
      step_is_overdue s now = true) ∧
    overdue_penalty [{ steps := [s] }] now =
      (if step_is_overdue s now then 15 else 0) := by
  obtain ⟨due, stat⟩ := s
  refine ⟨?_, ?_, ?_, ?_, ?_⟩
  · match due with
    | none => simp [step_is_overdue]
    | some (BsonDue.dt d) => simp [step_is_overdue]
    | some (BsonDue.other r) => simp [step_is_overdue]
  · intro hnone
    have h2 : due = none := hnone
    subst h2
    rfl
  · intro r hr
    have h2 : due = some (BsonDue.other r) := hr
    subst h2
    rfl
  · intro d hd hstat hlt
    subst hstat
    have h2 : due = some (BsonDue.dt d) := hd
    subst h2
    simp [step_is_overdue, hlt]
  · unfold overdue_penalty
    simp only [List.foldl_cons, List.foldl_nil]
    by_cases hov : step_is_overdue { due_date := due, status := stat } now
    · rw [if_pos hov, if_pos hov]
      norm_num
    · rw [if_neg hov, if_neg hov]

/-- Witness for C10: a past non-datetime `due_date` value does not count as
overdue. -/
theorem overdue_step_requires_datetime_due_witness :
    step_is_overdue
      { due_date := some (BsonDue.other "2020-01-01"), status := some "todo" }
      1704067200 = false :=
  (overdue_step_requires_datetime_due
    { due_date := some (BsonDue.other "2020-01-01"), status := some "todo" }
    1704067200).2.2.1 "2020-01-01" rfl
